import Mathlib

/-!
Verification of the routing configuration in
`backend/myProject/myApp/urls.py` of the JWT-Authentication-And-React-Connection
repository, together with the authorization contract of the protected endpoint.

The source file declares a module-level Django route table

  urlpatterns = [ path('protected/', ProtectedView.as_view()) ]

and imports `django.contrib.admin` without registering any admin route.
We embed the table as an immutable Lean list, Django's URL resolution as a
first-match lookup over exact path patterns (Django `path()` with no converters
matches the request path, leading slash stripped, exactly), and the request
dispatch cycle as a pure function that threads the (unchanged) server state.
-/

namespace JwtRoutes

/-- Handlers reachable from this fragment: the access-controlled view imported
and registered in `urls.py`, and the admin site, whose module is imported on
line 2 of `urls.py` but which is bound to no route. -/
inductive Handler where
  | protectedView : Handler
  | adminSite : Handler
deriving DecidableEq, Repr

/-- A route: a URL path pattern bound to a handler, as produced by
`django.urls.path(pattern, view)`. -/
structure Route where
  pattern : String
  handler : Handler
deriving DecidableEq, Repr

/-- The route table of `myApp/urls.py`: the single binding
`path('protected/', ProtectedView.as_view())`. -/
def urlpatterns : List Route :=
  [{ pattern := "protected/", handler := Handler.protectedView }]

/-- Django's root URL resolver strips the leading slash of the request path
before matching it against `urlpatterns` entries. -/
def normalize (p : String) : String :=
  match p.data with
  | '/' :: rest => String.mk rest
  | _ => p

/-- URL resolution over the table: first route whose pattern equals the
normalized path wins (Django `path()` patterns without converters are exact
string matches); no match yields `none`. A pure lookup with no side effects. -/
def resolve (table : List Route) (p : String) : Option Handler :=
  match table with
  | [] => none
  | r :: rest => if r.pattern = p then some r.handler else resolve rest p

/-- An inbound HTTP request: a path plus the opaque credential material
consumed by the authorization gate. -/
structure Request where
  path : String
  credential : String
deriving DecidableEq, Repr

/-- Responses observable at this fragment's boundary: a successful business
response, the structured authorization rejection, or the not-found outcome.
All three are ordinary return values, never a process-fatal condition. -/
inductive HttpResponse where
  | ok : String → HttpResponse
  | unauthorizedError : HttpResponse
  | notFound : HttpResponse
deriving DecidableEq, Repr

/-- Result of running one handler: its response, plus whether the handler's
business logic behind the authorization gate was actually executed. -/
structure HandlerResult where
  response : HttpResponse
  businessExecuted : Bool
deriving DecidableEq, Repr

/-- Modelled from the spec: `myApp/views.py` (the body of `ProtectedView`) is
not in the repository fragment; only `urls.py` imports and registers it. Per
the spec, the handler verifies that the request carries valid credentials via
the injected collaborator `is_authorized(request) -> boolean`; on failure it
signals an authorization rejection without executing further logic, on
success it proceeds to its (unspecified) business behavior. -/
def protectedHandle (isAuth : Request → Bool) (business : Request → String)
    (req : Request) : HandlerResult :=
  if isAuth req then
    { response := HttpResponse.ok (business req), businessExecuted := true }
  else
    { response := HttpResponse.unauthorizedError, businessExecuted := false }

/-- Run the handler selected by the route table. The admin site's behavior is
an external collaborator (its module is imported but its behavior is not in
scope), so it is passed in abstractly. -/
def runHandler (h : Handler) (isAuth : Request → Bool) (business : Request → String)
    (adminHandle : Request → HandlerResult) (req : Request) : HandlerResult :=
  match h with
  | Handler.protectedView => protectedHandle isAuth business req
  | Handler.adminSite => adminHandle req

/-- Outcome of dispatching one request: the response, the list of handlers
invoked (in order), and whether gated business logic ran. -/
structure DispatchResult where
  response : HttpResponse
  invoked : List Handler
  businessExecuted : Bool
deriving DecidableEq, Repr

/-- The dispatch framework's per-request cycle: match the normalized request
path against the table; no match yields the not-found outcome with no handler
invoked, a match invokes exactly the selected handler. -/
def dispatch (table : List Route) (isAuth : Request → Bool)
    (business : Request → String) (adminHandle : Request → HandlerResult)
    (req : Request) : DispatchResult :=
  match resolve table (normalize req.path) with
  | none => { response := HttpResponse.notFound, invoked := [], businessExecuted := false }
  | some h =>
    let r := runHandler h isAuth business adminHandle req
    { response := r.response, invoked := [h], businessExecuted := r.businessExecuted }

/-- Process-wide server state visible to this fragment: the route table,
built once at module import time from `urlpatterns`. -/
structure ServerState where
  table : List Route
deriving DecidableEq, Repr

/-- The state constructed at process start: the table is exactly
`urlpatterns` of `myApp/urls.py`. -/
def initServer : ServerState := { table := urlpatterns }

/-- Handling one request reads the route table and produces a dispatch
result; nothing in `urls.py` or the dispatch cycle writes to the table, so
the state after the request is the state before it. -/
def handleRequest (s : ServerState) (isAuth : Request → Bool)
    (business : Request → String) (adminHandle : Request → HandlerResult)
    (req : Request) : DispatchResult × ServerState :=
  (dispatch s.table isAuth business adminHandle req, s)

/- Concrete instantiations used by the witnesses. -/

/-- A request for the protected path. -/
def protectedReq : Request := { path := "/protected/", credential := "token" }

/-- A request for a path registered nowhere. -/
def strayReq : Request := { path := "/missing/", credential := "token" }

/-- An authorization gate that rejects every request. -/
def denyAll : Request → Bool := fun _ => false

/-- An authorization gate that accepts every request. -/
def allowAll : Request → Bool := fun _ => true

/-- A concrete business behavior for the protected handler. -/
def helloBusiness : Request → String := fun _ => "hello"

/-- A concrete stand-in for the (unregistered) admin collaborator. -/
def adminStub : Request → HandlerResult :=
  fun _ => { response := HttpResponse.notFound, businessExecuted := false }

/- Theorems. -/

/-- C1: the route table registers the path `protected/` bound to the
Protected Handler, so matching the request path `/protected/` against the
table yields exactly that handler. -/
theorem c1_protected_route_registered :
    resolve urlpatterns (normalize "/protected/") = some Handler.protectedView ∧
    { pattern := "protected/", handler := Handler.protectedView } ∈ urlpatterns := by
  constructor
  · rfl
  · simp [urlpatterns]

/-- C2: a request to `/protected/` whose credentials the gate rejects never
executes business logic and yields the structured authorization rejection
(an ordinary response value, never a fatal condition). -/
theorem c2_unauthorized_rejected (isAuth : Request → Bool)
    (business : Request → String) (adminHandle : Request → HandlerResult)
    (req : Request) (hpath : normalize req.path = "protected/")
    (hauth : isAuth req = false) :
    (dispatch urlpatterns isAuth business adminHandle req).response
        = HttpResponse.unauthorizedError ∧
    (dispatch urlpatterns isAuth business adminHandle req).businessExecuted
        = false := by
  simp [dispatch, hpath, resolve, urlpatterns, runHandler, protectedHandle, hauth]

/-- C2 witness: the rejecting gate on a concrete `/protected/` request. -/
theorem c2_unauthorized_rejected_witness :
    (dispatch urlpatterns denyAll helloBusiness adminStub protectedReq).response
        = HttpResponse.unauthorizedError ∧
    (dispatch urlpatterns denyAll helloBusiness adminStub protectedReq).businessExecuted
        = false :=
  c2_unauthorized_rejected denyAll helloBusiness adminStub protectedReq
    (by decide) rfl

/-- C3: a request to `/protected/` whose credentials the gate accepts passes
the authorization gate and the Protected Handler's business behavior runs,
producing a response. -/
theorem c3_authorized_reaches_handler (isAuth : Request → Bool)
    (business : Request → String) (adminHandle : Request → HandlerResult)
    (req : Request) (hpath : normalize req.path = "protected/")
    (hauth : isAuth req = true) :
    dispatch urlpatterns isAuth business adminHandle req
      = { response := HttpResponse.ok (business req),
          invoked := [Handler.protectedView],
          businessExecuted := true } := by
  simp [dispatch, hpath, resolve, urlpatterns, runHandler, protectedHandle, hauth]

/-- C3 witness: the accepting gate on a concrete `/protected/` request. -/
theorem c3_authorized_reaches_handler_witness :
    dispatch urlpatterns allowAll helloBusiness adminStub protectedReq
      = { response := HttpResponse.ok "hello",
          invoked := [Handler.protectedView],
          businessExecuted := true } :=
  c3_authorized_reaches_handler allowAll helloBusiness adminStub protectedReq
    (by decide) rfl

/-- C4: a request whose path matches no entry of the route table yields the
not-found outcome and invokes no handler. -/
theorem c4_unregistered_not_found (table : List Route) (isAuth : Request → Bool)
    (business : Request → String) (adminHandle : Request → HandlerResult)
    (req : Request) (h : resolve table (normalize req.path) = none) :
    dispatch table isAuth business adminHandle req
      = { response := HttpResponse.notFound, invoked := [],
          businessExecuted := false } := by
  simp [dispatch, h]

/-- C4 witness: a concrete request to the unregistered path `/missing/`. -/
theorem c4_unregistered_not_found_witness :
    dispatch urlpatterns allowAll helloBusiness adminStub strayReq
      = { response := HttpResponse.notFound, invoked := [],
          businessExecuted := false } :=
  c4_unregistered_not_found urlpatterns allowAll helloBusiness adminStub strayReq
    (by decide)

/-- C5: for every path registered in the route table, a request to that path
invokes the handler bound to it exactly once: the invocation list is exactly
the singleton of that handler. -/
theorem c5_registered_dispatch_once (isAuth : Request → Bool)
    (business : Request → String) (adminHandle : Request → HandlerResult)
    (req : Request) (r : Route) (hr : r ∈ urlpatterns)
    (hpath : normalize req.path = r.pattern) :
    (dispatch urlpatterns isAuth business adminHandle req).invoked
      = [r.handler] := by
  simp only [urlpatterns, List.mem_singleton] at hr
  subst hr
  simp [dispatch, hpath, resolve, urlpatterns, runHandler]

/-- C5 witness: the one registered route, exercised at `/protected/`. -/
theorem c5_registered_dispatch_once_witness :
    (dispatch urlpatterns allowAll helloBusiness adminStub protectedReq).invoked
      = [Handler.protectedView] :=
  c5_registered_dispatch_once allowAll helloBusiness adminStub protectedReq
    { pattern := "protected/", handler := Handler.protectedView }
    (by simp [urlpatterns]) (by decide)

/-- C6: matching is a pure lookup: for every table and path it either selects
no handler, or selects the handler of a route of the table bound to exactly
that path; as a total Lean function it has no side effects and touches no
state. -/
theorem c6_resolve_pure_lookup (table : List Route) (p : String) :
    resolve table p = none ∨
    ∃ r, r ∈ table ∧ r.pattern = p ∧ resolve table p = some r.handler := by
  induction table with
  | nil => exact Or.inl rfl
  | cons r rest ih =>
    by_cases h : r.pattern = p
    · exact Or.inr ⟨r, List.mem_cons_self r rest, h, by simp [resolve, h]⟩
    · rcases ih with hnone | ⟨r2, hmem, hpat, hres⟩
      · exact Or.inl (by simp [resolve, h, hnone])
      · exact Or.inr ⟨r2, List.mem_cons_of_mem r hmem, hpat,
          by simp [resolve, h, hres]⟩

/-- C7: the route table is built exactly once at process start from
`urlpatterns`, and handling any request leaves the server state — hence
every (pattern, handler) binding — unchanged. -/
theorem c7_table_immutable (s : ServerState) (isAuth : Request → Bool)
    (business : Request → String) (adminHandle : Request → HandlerResult)
    (req : Request) :
    (handleRequest s isAuth business adminHandle req).2 = s ∧
    initServer.table = urlpatterns :=
  ⟨rfl, rfl⟩

/-- C8: no two distinct routes of the table match an identical normalized
path (at most one route matches any path), and resolution selects the first
match in declaration order. -/
theorem c8_no_duplicate_match :
    (∀ p : String, (urlpatterns.filter fun r => r.pattern == p).length ≤ 1) ∧
    ∀ (table : List Route) (p : String),
      resolve table p = (table.find? fun r => r.pattern == p).map Route.handler := by
  constructor
  · intro p
    by_cases h : "protected/" = p <;>
      simp [urlpatterns, List.filter_cons, beq_iff_eq, h]
  · intro table p
    induction table with
    | nil => rfl
    | cons r rest ih =>
      by_cases h : r.pattern = p <;>
        simp [resolve, List.find?_cons, h, ih]

/-- C9: repeated identical authorized requests to `/protected/` each
independently pass the gate with the same outcome: handling a request
mutates no shared state, so a second identical request against the
resulting state yields the identical dispatch result. -/
theorem c9_repeat_idempotent (isAuth : Request → Bool)
    (business : Request → String) (adminHandle : Request → HandlerResult)
    (req : Request) (hpath : normalize req.path = "protected/")
    (hauth : isAuth req = true) :
    (handleRequest initServer isAuth business adminHandle req).1.response
        = HttpResponse.ok (business req) ∧
    (handleRequest (handleRequest initServer isAuth business adminHandle req).2
        isAuth business adminHandle req).1
      = (handleRequest initServer isAuth business adminHandle req).1 := by
  constructor
  · simp [handleRequest, initServer, dispatch, hpath, resolve, urlpatterns,
      runHandler, protectedHandle, hauth]
  · rfl

/-- C9 witness: two identical authorized `/protected/` requests in sequence. -/
theorem c9_repeat_idempotent_witness :
    (handleRequest initServer allowAll helloBusiness adminStub protectedReq).1.response
        = HttpResponse.ok "hello" ∧
    (handleRequest (handleRequest initServer allowAll helloBusiness adminStub protectedReq).2
        allowAll helloBusiness adminStub protectedReq).1
      = (handleRequest initServer allowAll helloBusiness adminStub protectedReq).1 :=
  c9_repeat_idempotent allowAll helloBusiness adminStub protectedReq
    (by decide) rfl

/-- C10: the route table has exactly the one `protected/` entry: every other
path is unmatched, and although the admin module is imported in `urls.py`,
no path ever resolves to the admin handler. -/
theorem c10_single_route_no_admin (p : String) :
    urlpatterns = [{ pattern := "protected/", handler := Handler.protectedView }] ∧
    (p ≠ "protected/" → resolve urlpatterns p = none) ∧
    resolve urlpatterns p ≠ some Handler.adminSite := by
  refine ⟨rfl, fun hne => ?_, ?_⟩
  · simp [resolve, urlpatterns]
    exact fun h => absurd h.symm hne
  · by_cases h : "protected/" = p <;> simp [resolve, urlpatterns, h]

/-- C10 witness: the admin path itself matches nothing. -/
theorem c10_single_route_no_admin_witness :
    resolve urlpatterns "admin/" = none ∧
    resolve urlpatterns "admin/" ≠ some Handler.adminSite :=
  ⟨(c10_single_route_no_admin "admin/").2.1 (by decide),
   (c10_single_route_no_admin "admin/").2.2⟩

end JwtRoutes
